import Mathlib

/-!
Verification of the grid-trader repository's natural-language specification
against a shallow embedding of its Python sources.

Conventions of the embedding:
* Python floats are modelled as exact rationals (`ℚ`); `time.time()` values and
  prices are rationals, calendar dates are naturals.
* Python's truthiness test `if not self.current_price` is modelled explicitly:
  `None` becomes `Option.none` and the number `0` is also falsy.
* Fallible operations are modelled by `Option`/explicit outcome types.
* Source files referenced below:
  - `src/config/trading_config.py` (`TradingConfig`)
  - `src/core/trading/grid_trader.py` (`GridTrader`)
  - `src/core/trading/order_tracker.py` (`OrderThrottler`, `OrderTracker`)
  - `src/core/trading/risk_manager.py` (`RiskManager`)
  - `src/core/trading/position_controller.py` (`PositionController`)
  - `src/utils/helpers.py` (`round_down_to_precision`)
-/

/-- Configuration fields of `TradingConfig._load_trading_config` that the
trading logic below reads.  The two position-share bounds embed the config
attributes whose Python names end in `_RATIO` (floor and cap of the
base-asset share of total assets). -/
structure TradingConfig where
  INITIAL_GRID : ℚ
  MIN_TRADE_AMOUNT : ℚ
  MAX_POSITION_PERCENT : ℚ
  MIN_POSITION_SHARE : ℚ
  MAX_POSITION_SHARE : ℚ
  MAX_DRAWDOWN : ℚ
  DAILY_LOSS_LIMIT : ℚ

/-- `TradingConfig.get_flip_threshold`: `(self.INITIAL_GRID / 5) / 100`. -/
def TradingConfig.get_flip_threshold (cfg : TradingConfig) : ℚ :=
  cfg.INITIAL_GRID / 5 / 100

/-- The default values assigned in `TradingConfig._load_trading_config`
(`INITIAL_GRID` 2.0, `MIN_TRADE_AMOUNT` 20.0, `MAX_POSITION_PERCENT` 0.15,
`MIN_POSITION_RATIO` 0.1, `MAX_POSITION_RATIO` 0.9, `MAX_DRAWDOWN` -0.15,
`DAILY_LOSS_LIMIT` -0.05). -/
def default_trading_config : TradingConfig :=
  { INITIAL_GRID := 2
    MIN_TRADE_AMOUNT := 20
    MAX_POSITION_PERCENT := 15/100
    MIN_POSITION_SHARE := 1/10
    MAX_POSITION_SHARE := 9/10
    MAX_DRAWDOWN := -(15/100)
    DAILY_LOSS_LIMIT := -(5/100) }

/-- `GridTrader._get_upper_band`: `base_price * (1 + grid_size / 100)`. -/
def get_upper_band (base_price grid_size : ℚ) : ℚ :=
  base_price * (1 + grid_size / 100)

/-- `GridTrader._get_lower_band`: `base_price * (1 - grid_size / 100)`. -/
def get_lower_band (base_price grid_size : ℚ) : ℚ :=
  base_price * (1 - grid_size / 100)

/-- `GridTrader._check_buy_signal`: returns `False` when `self.current_price`
is falsy (`None` or `0`), otherwise fires iff
`current_price <= lower_band * (1 - flip_threshold)`. -/
def check_buy_signal (cfg : TradingConfig) (base_price grid_size : ℚ)
    (current_price : Option ℚ) : Bool :=
  match current_price with
  | none => false
  | some p =>
    if p = 0 then false
    else decide (p ≤ get_lower_band base_price grid_size * (1 - cfg.get_flip_threshold))

/-- `GridTrader._check_sell_signal`: returns `False` when `self.current_price`
is falsy, otherwise fires iff
`current_price >= upper_band * (1 + flip_threshold)`. -/
def check_sell_signal (cfg : TradingConfig) (base_price grid_size : ℚ)
    (current_price : Option ℚ) : Bool :=
  match current_price with
  | none => false
  | some p =>
    if p = 0 then false
    else decide (get_upper_band base_price grid_size * (1 + cfg.get_flip_threshold) ≤ p)

/-- The table built by `TradingConfig._get_default_volatility_thresholds`,
as ordered triples (range lower bound, range upper bound, grid size). -/
def default_volatility_ranges : List (ℚ × ℚ × ℚ) :=
  [(0, 20/100, 1), (20/100, 40/100, 3/2), (40/100, 60/100, 2),
   (60/100, 80/100, 5/2), (80/100, 1, 3), (1, 120/100, 7/2), (120/100, 999, 4)]

/-- `TradingConfig.get_grid_size_by_volatility`: scan the ordered ranges for
the first half-open interval `min_vol <= volatility < max_vol`; if none
matches, fall through to `ranges[-1]["grid"]` (the last range's grid).
The `getLastD` default `(0,0,0)` is unreachable for the non-empty tables the
code constructs (Python would raise `IndexError` on an empty list). -/
def get_grid_size_by_volatility (ranges : List (ℚ × ℚ × ℚ)) (volatility : ℚ) : ℚ :=
  match ranges.find? (fun r => decide (r.1 ≤ volatility) && decide (volatility < r.2.1)) with
  | some r => r.2.2
  | none => (ranges.getLastD (0, 0, 0)).2.2

/-- C1: with base_price 600, grid_size 2 and flip threshold
`(INITIAL_GRID/5)/100 = 0.004` (INITIAL_GRID = 2), the lower band is 588 and
the upper band is 612; for every (truthy, i.e. nonzero) current price `p` the buy signal
fires iff `p ≤ 588·0.996 = 585.648`, the sell signal fires iff
`p ≥ 612·1.004 = 614.448`, and strictly between the two thresholds neither
signal fires. -/
theorem c1_grid_bands_and_signals (p : ℚ) (hp : p ≠ 0) :
    get_lower_band 600 2 = 588 ∧ get_upper_band 600 2 = 612 ∧
    (check_buy_signal default_trading_config 600 2 (some p) = true ↔ p ≤ 585648/1000) ∧
    (check_sell_signal default_trading_config 600 2 (some p) = true ↔ 614448/1000 ≤ p) ∧
    (585648/1000 < p → p < 614448/1000 →
      check_buy_signal default_trading_config 600 2 (some p) = false ∧
      check_sell_signal default_trading_config 600 2 (some p) = false) := by
  have hp0 : p ≠ 0 := hp
  refine ⟨by norm_num [get_lower_band], by norm_num [get_upper_band], ?_, ?_, ?_⟩
  · simp only [check_buy_signal, if_neg hp0, decide_eq_true_eq]
    norm_num [get_lower_band, TradingConfig.get_flip_threshold, default_trading_config]
  · simp only [check_sell_signal, if_neg hp0, decide_eq_true_eq]
    norm_num [get_upper_band, TradingConfig.get_flip_threshold, default_trading_config]
  · intro h1 h2
    constructor
    · simp only [check_buy_signal, if_neg hp0, decide_eq_false_iff_not]
      norm_num [get_lower_band, TradingConfig.get_flip_threshold, default_trading_config]
      linarith
    · simp only [check_sell_signal, if_neg hp0, decide_eq_false_iff_not]
      norm_num [get_upper_band, TradingConfig.get_flip_threshold, default_trading_config]
      linarith

/-- Witness for C1 at the concrete price 585. -/
theorem c1_grid_bands_and_signals_witness :
    (585:ℚ) ≠ 0 ∧
    (get_lower_band 600 2 = 588 ∧ get_upper_band 600 2 = 612 ∧
      (check_buy_signal default_trading_config 600 2 (some 585) = true ↔
        (585:ℚ) ≤ 585648/1000) ∧
      (check_sell_signal default_trading_config 600 2 (some 585) = true ↔
        (614448:ℚ)/1000 ≤ 585) ∧
      ((585648:ℚ)/1000 < 585 → (585:ℚ) < 614448/1000 →
        check_buy_signal default_trading_config 600 2 (some 585) = false ∧
        check_sell_signal default_trading_config 600 2 (some 585) = false)) :=
  ⟨by norm_num, c1_grid_bands_and_signals 585 (by norm_num)⟩

/-- C10: a negative volatility matches no half-open range of the default
table, so `get_grid_size_by_volatility` falls through to the final range's
grid value 4.0, which is also the largest grid value in the table. -/
theorem c10_negative_volatility_falls_through (v : ℚ) (hv : v < 0) :
    get_grid_size_by_volatility default_volatility_ranges v = 4 ∧
    (∀ r ∈ default_volatility_ranges, r.2.2 ≤ 4) := by
  constructor
  · have h0 : ¬ ((0:ℚ) ≤ v) := by linarith
    have h1 : ¬ ((20/100:ℚ) ≤ v) := by intro h; norm_num at h; linarith
    have h2 : ¬ ((40/100:ℚ) ≤ v) := by intro h; norm_num at h; linarith
    have h3 : ¬ ((60/100:ℚ) ≤ v) := by intro h; norm_num at h; linarith
    have h4 : ¬ ((80/100:ℚ) ≤ v) := by intro h; norm_num at h; linarith
    have h5 : ¬ ((1:ℚ) ≤ v) := by linarith
    have h6 : ¬ ((120/100:ℚ) ≤ v) := by intro h; norm_num at h; linarith
    simp [get_grid_size_by_volatility, default_volatility_ranges, List.find?,
      h0, h1, h2, h3, h4, h5, h6]
  · intro r hr
    fin_cases hr <;> norm_num

/-- Witness for C10 at volatility -1. -/
theorem c10_negative_volatility_falls_through_witness :
    (-1:ℚ) < 0 ∧
    (get_grid_size_by_volatility default_volatility_ranges (-1) = 4 ∧
      ∀ r ∈ default_volatility_ranges, r.2.2 ≤ 4) :=
  ⟨by norm_num, c10_negative_volatility_falls_through (-1) (by norm_num)⟩

/-- A well-formed trade record, as built by `GridTrader._execute_buy_order`,
`GridTrader._execute_sell_order` and `PositionController._execute_s1_adjustment`.
The required fields checked by `OrderTracker.add_trade` (`timestamp`, `side`,
`price`, `amount`, `order_id`) are present and typed, so the field and
float-conversion validation of `add_trade` always passes on such a record;
order ids are modelled as naturals.  `profit` is the optional key read by
`get_statistics` via `t.get("profit", 0)`. -/
structure TradeRecord where
  timestamp : ℚ
  symbol : String
  side : String
  amount : ℚ
  price : ℚ
  cost : ℚ
  order_id : ℕ
  profit : Option ℚ
deriving DecidableEq

/-- `OrderTracker.add_trade` restricted to well-formed records: if some entry
of `trade_history` already carries the new record's `order_id`, the call is a
no-op; otherwise the record is appended and, when the history then exceeds 100
entries, it is truncated to the most recent 100 (`trade_history[-100:]`). -/
def add_trade (trade_history : List TradeRecord) (trade : TradeRecord) :
    List TradeRecord :=
  if trade_history.any (fun t => decide (t.order_id = trade.order_id)) then trade_history
  else
    let h := trade_history ++ [trade]
    if 100 < h.length then h.drop (h.length - 100) else h

/-- A generic well-formed record with order id `n`, used for concrete ledger
scenarios. -/
def cx_trade (n : ℕ) : TradeRecord :=
  { timestamp := 0, symbol := "BNB/USDT", side := "buy", amount := 1, price := 1,
    cost := 1, order_id := n, profit := none }

/-- The ledger obtained by inserting a record with order id 0 and then 100
records with distinct fresh order ids 1..100: the cap evicts the id-0 record. -/
def cx_history : List TradeRecord :=
  List.foldl add_trade [] (cx_trade 0 :: (List.range 100).map (fun i => cx_trade (i + 1)))

/-- Invariant for the C2 induction: the history contains exactly one entry
with order id `x`, and at most `b` entries follow it (so the 100-entry cap
cannot evict it during the next `99 - b` insertions). -/
def UniqueWithBudget (x : ℕ) (s : List TradeRecord) (b : ℕ) : Prop :=
  ∃ pre t post, s = pre ++ t :: post ∧ t.order_id = x ∧
    pre.countP (fun u => decide (u.order_id = x)) = 0 ∧
    post.countP (fun u => decide (u.order_id = x)) = 0 ∧
    post.length ≤ b

lemma uniqueWithBudget_add_trade (x : ℕ) (s : List TradeRecord) (b : ℕ)
    (hb : b ≤ 98) (m : TradeRecord) (hm : m.order_id ≠ x)
    (h : UniqueWithBudget x s b) : UniqueWithBudget x (add_trade s m) (b + 1) := by
  obtain ⟨pre, t, post, rfl, ht, hpre, hpost, hlen⟩ := h
  unfold add_trade
  by_cases hdup :
      (pre ++ t :: post).any (fun u => decide (u.order_id = m.order_id)) = true
  · rw [if_pos hdup]
    exact ⟨pre, t, post, rfl, ht, hpre, hpost, hlen.trans (Nat.le_succ b)⟩
  · rw [if_neg hdup]
    have happ : (pre ++ t :: post) ++ [m] = pre ++ t :: (post ++ [m]) := by
      simp
    have hpost' : (post ++ [m]).countP (fun u => decide (u.order_id = x)) = 0 := by
      rw [List.countP_append, hpost]
      simp [hm]
    have hlen' : (post ++ [m]).length ≤ b + 1 := by
      simp only [List.length_append, List.length_singleton]
      omega
    by_cases hcap : 100 < ((pre ++ t :: post) ++ [m]).length
    · rw [if_pos hcap]
      set d := ((pre ++ t :: post) ++ [m]).length - 100 with hd
      have hdle : d ≤ pre.length := by
        have : ((pre ++ t :: post) ++ [m]).length =
            pre.length + post.length + 2 := by
          simp; omega
        omega
      rw [happ, List.drop_append_of_le_length hdle]
      refine ⟨pre.drop d, t, post ++ [m], rfl, ht, ?_, hpost', hlen'⟩
      have hsub := (List.drop_sublist d pre).countP_le
        (p := fun u => decide (u.order_id = x))
      omega
    · rw [if_neg hcap, happ]
      exact ⟨pre, t, post ++ [m], rfl, ht, hpre, hpost', hlen'⟩

lemma uniqueWithBudget_first_insert (x : ℕ) (h0 : List TradeRecord)
    (t1 : TradeRecord) (ht1 : t1.order_id = x)
    (hh0 : h0.countP (fun u => decide (u.order_id = x)) = 0) :
    UniqueWithBudget x (add_trade h0 t1) 0 := by
  have hnodup : ¬ (h0.any (fun t => decide (t.order_id = t1.order_id)) = true) := by
    intro hdup
    obtain ⟨u, hu, hux⟩ := List.any_eq_true.mp hdup
    exact (List.countP_eq_zero.mp hh0 u hu) (by simpa [ht1] using hux)
  unfold add_trade
  rw [if_neg hnodup]
  by_cases hcap : 100 < (h0 ++ [t1]).length
  · rw [if_pos hcap]
    set d := (h0 ++ [t1]).length - 100 with hd
    have hdle : d ≤ h0.length := by
      simp only [List.length_append, List.length_singleton] at hcap hd ⊢
      omega
    rw [List.drop_append_of_le_length hdle]
    refine ⟨h0.drop d, t1, [], by simp, ht1, ?_, by simp, le_refl 0⟩
    have hsub := (List.drop_sublist d h0).countP_le
      (p := fun u => decide (u.order_id = x))
    omega
  · rw [if_neg hcap]
    exact ⟨h0, t1, [], by simp, ht1, hh0, by simp, le_refl 0⟩

lemma uniqueWithBudget_foldl (x : ℕ) (mids : List TradeRecord)
    (hm : ∀ m ∈ mids, m.order_id ≠ x) :
    ∀ s b, UniqueWithBudget x s b → b + mids.length ≤ 99 →
      UniqueWithBudget x (List.foldl add_trade s mids) (b + mids.length) := by
  induction mids with
  | nil => intro s b h _; simpa using h
  | cons m ms ih =>
    intro s b h hbound
    have hb : b ≤ 98 := by simp only [List.length_cons] at hbound; omega
    have hstep := uniqueWithBudget_add_trade x s b hb m
      (hm m (List.mem_cons_self m ms)) h
    have := ih (fun u hu => hm u (List.mem_cons_of_mem m hu))
      (add_trade s m) (b + 1) hstep (by simp only [List.length_cons] at hbound; omega)
    simpa [List.foldl_cons, Nat.add_assoc, Nat.add_comm 1 ms.length] using this

lemma add_trade_dup (s : List TradeRecord) (t : TradeRecord)
    (h : s.any (fun u => decide (u.order_id = t.order_id)) = true) :
    add_trade s t = s := by
  unfold add_trade
  rw [if_pos h]

set_option maxRecDepth 8000 in
/-- C2 counterexample: insert a record with order id 0, then 100 records with
fresh ids (which pushes the id-0 record out of the 100-entry live window),
then insert a second record with order id 0 again.  The second insert is not a
no-op: it changes the history, refuting the claim for arbitrary intervening
insertions. -/
theorem c2_cap_eviction_counterexample :
    List.map (fun t => t.order_id) (add_trade cx_history (cx_trade 0)) ≠
      List.map (fun t => t.order_id) cx_history := by decide

/-- C2 (amended): `add_trade` is idempotent by order id as long as the first
record has not been evicted by the 100-entry cap.  For any initial history
with no entry carrying the shared order id and at most 99 intervening
insertions with other order ids, inserting both records leaves exactly one
entry with that order id, and the second insert is a no-op on the history. -/
theorem c2_add_trade_idempotent_by_order_id
    (h0 : List TradeRecord) (t1 t2 : TradeRecord) (mids : List TradeRecord)
    (hid : t1.order_id = t2.order_id)
    (hmids : ∀ m ∈ mids, m.order_id ≠ t1.order_id)
    (hh0 : h0.countP (fun u => decide (u.order_id = t1.order_id)) = 0)
    (hlen : mids.length ≤ 99) :
    add_trade (List.foldl add_trade (add_trade h0 t1) mids) t2 =
      List.foldl add_trade (add_trade h0 t1) mids ∧
    (List.foldl add_trade (add_trade h0 t1) mids).countP
      (fun u => decide (u.order_id = t1.order_id)) = 1 := by
  have hbase := uniqueWithBudget_first_insert t1.order_id h0 t1 rfl hh0
  have hfold := uniqueWithBudget_foldl t1.order_id mids hmids
    (add_trade h0 t1) 0 hbase (by omega)
  obtain ⟨pre, t, post, hs, ht, hpre, hpost, _⟩ := hfold
  constructor
  · have hany : (List.foldl add_trade (add_trade h0 t1) mids).any
        (fun u => decide (u.order_id = t2.order_id)) = true := by
      rw [List.any_eq_true]
      exact ⟨t, by rw [hs]; simp, by simp [ht, ← hid]⟩
    exact add_trade_dup _ t2 hany
  · rw [hs]
    simp [List.countP_append, List.countP_cons, hpre, hpost, ht]

/-- Witness for C2 (amended) with an empty initial ledger and one intervening
insertion. -/
theorem c2_add_trade_idempotent_by_order_id_witness :
    (cx_trade 0).order_id = (cx_trade 0).order_id ∧
    (∀ m ∈ [cx_trade 1], m.order_id ≠ (cx_trade 0).order_id) ∧
    ([] : List TradeRecord).countP
      (fun u => decide (u.order_id = (cx_trade 0).order_id)) = 0 ∧
    [cx_trade 1].length ≤ 99 ∧
    (add_trade (List.foldl add_trade (add_trade [] (cx_trade 0)) [cx_trade 1])
        (cx_trade 0) =
      List.foldl add_trade (add_trade [] (cx_trade 0)) [cx_trade 1] ∧
    (List.foldl add_trade (add_trade [] (cx_trade 0)) [cx_trade 1]).countP
      (fun u => decide (u.order_id = (cx_trade 0).order_id)) = 1) :=
  ⟨rfl, by decide, by decide, by decide,
    c2_add_trade_idempotent_by_order_id [] (cx_trade 0) (cx_trade 0) [cx_trade 1]
      rfl (by decide) (by decide) (by decide)⟩

/-- `OrderThrottler.check_rate` (defaults `limit=10`, `interval=60`): prune
timestamps older than the window (`current_time - t < interval` keeps a
timestamp), deny at capacity, otherwise record the current time and allow. -/
def check_rate (limit : ℕ) (interval : ℚ) (order_timestamps : List ℚ)
    (current_time : ℚ) : Bool × List ℚ :=
  let pruned := order_timestamps.filter (fun t => decide (current_time - t < interval))
  if limit ≤ pruned.length then (false, pruned)
  else (true, pruned ++ [current_time])

/-- Iterate `check_rate` over a sequence of call times, starting from the
given recorded-timestamp state, returning the allow/deny decision of each
call. -/
def run_throttler (limit : ℕ) (interval : ℚ) : List ℚ → List ℚ → List Bool
  | _, [] => []
  | s, now :: ts =>
    (check_rate limit interval s now).1 ::
      run_throttler limit interval (check_rate limit interval s now).2 ts

/-- Modelled from the spec's words ("at most K submissions per rolling
interval"): the reference sliding-window policy that allows a call iff fewer
than `limit` previously allowed submissions lie within the rolling interval,
tracking the full list of allowed submission times without any pruning. -/
def spec_sliding_window (limit : ℕ) (interval : ℚ) : List ℚ → List ℚ → List Bool
  | _, [] => []
  | allowed, now :: ts =>
    let ok := decide ((allowed.filter (fun u => decide (now - u < interval))).length < limit)
    ok :: spec_sliding_window limit interval (if ok then allowed ++ [now] else allowed) ts

lemma run_throttler_eq_spec_aux (ts : List ℚ) :
    ∀ (A s : List ℚ) (tmax : ℚ),
      s = A.filter (fun u => decide (tmax - u < 60)) →
      List.Chain' (· ≤ ·) (tmax :: ts) →
      run_throttler 10 60 s ts = spec_sliding_window 10 60 A ts := by
  induction ts with
  | nil => intro A s tmax _ _; rfl
  | cons now ts ih =>
    intro A s tmax hs hchain
    have hle : tmax ≤ now := (List.chain'_cons.mp hchain).1
    have hchain' : List.Chain' (· ≤ ·) (now :: ts) := (List.chain'_cons.mp hchain).2
    have hprune : s.filter (fun t => decide (now - t < 60)) =
        A.filter (fun u => decide (now - u < 60)) := by
      rw [hs, List.filter_filter]
      refine List.filter_congr ?_
      intro u _
      by_cases h : now - u < 60
      · have h2 : tmax - u < 60 := by linarith
        simp [h, h2]
      · simp [h]
    simp only [run_throttler, spec_sliding_window, check_rate]
    rw [hprune]
    by_cases hcap : 10 ≤ (A.filter (fun u => decide (now - u < 60))).length
    · rw [if_pos hcap]
      have hok : decide ((A.filter (fun u => decide (now - u < 60))).length < 10) = false := by
        simp; omega
      rw [hok]
      simp only [if_neg (Bool.false_ne_true), cond_false]
      refine congrArg _ ?_
      exact ih A _ now rfl hchain'
    · rw [if_neg hcap]
      have hok : decide ((A.filter (fun u => decide (now - u < 60))).length < 10) = true := by
        simp; omega
      rw [hok]
      simp only [if_pos rfl]
      refine congrArg _ ?_
      refine ih (A ++ [now]) _ now ?_ hchain'
      rw [List.filter_append]
      have : List.filter (fun u => decide (now - u < 60)) [now] = [now] := by
        simp
      rw [this]

/-- C6: the throttle gate with limit 10 and interval 60 refines the rolling
sliding-window policy: for every nondecreasing sequence of call times,
starting from an empty state, each `check_rate` call is allowed iff fewer
than 10 previously allowed submissions lie within the last 60 seconds — in
particular the 11th call inside one window is denied, and capacity frees once
the oldest allowed timestamp ages past 60 seconds. -/
theorem c6_throttler_matches_sliding_window (ts : List ℚ)
    (hts : List.Chain' (· ≤ ·) ts) :
    run_throttler 10 60 [] ts = spec_sliding_window 10 60 [] ts := by
  cases ts with
  | nil => rfl
  | cons t ts' =>
    exact run_throttler_eq_spec_aux (t :: ts') [] [] t (by simp)
      (List.chain'_cons.mpr ⟨le_refl t, hts⟩)

/-- Witness for C6: ten calls at time 0 are allowed, the 11th at time 30 is
denied, and a call at time 61 (after the ten timestamps aged out) is allowed
again. -/
theorem c6_throttler_matches_sliding_window_witness :
    List.Chain' (· ≤ ·) [(0:ℚ), 0, 0, 0, 0, 0, 0, 0, 0, 0, 30, 61] ∧
    run_throttler 10 60 [] [(0:ℚ), 0, 0, 0, 0, 0, 0, 0, 0, 0, 30, 61] =
      spec_sliding_window 10 60 [] [(0:ℚ), 0, 0, 0, 0, 0, 0, 0, 0, 0, 30, 61] :=
  ⟨by norm_num [List.chain'_cons],
    c6_throttler_matches_sliding_window _ (by norm_num [List.chain'_cons])⟩

/-- `round_down_to_precision` from `src/utils/helpers.py` for a precision that
is a power-of-ten step `10^(-d)` (the instrument minimum amount steps used by
the code, e.g. `0.001` with `d = 3`): `Decimal.quantize(..., ROUND_DOWN)`
truncates the value toward zero at `d` decimal digits. -/
def round_down_to_precision (value : ℚ) (d : ℕ) : ℚ :=
  if value < 0 then (⌈value * 10 ^ d⌉ : ℚ) / 10 ^ d
  else (⌊value * 10 ^ d⌋ : ℚ) / 10 ^ d

/-- `GridTrader._adjust_amount_precision` with market info loaded: round the
amount down to the instrument's minimum amount step `10^(-d)` via
`round_down_to_precision` (the fallback branch for absent `symbol_info`,
plain `round(amount, 6)`, is not exercised by the claims). -/
def adjust_amount_precision (amount : ℚ) (d : ℕ) : ℚ :=
  round_down_to_precision amount d

/-- `GridTrader.calculate_trade_amount` on a successful balance fetch, with
free quote balance `usdt_free` and free base balance `base_free` (a fetch
exception is caught and yields 0; see `execute_buy_order` below).  Buys cap
the quote notional at `usdt_free * MAX_POSITION_PERCENT`, return 0 below
`MIN_TRADE_AMOUNT`, and otherwise convert to base units at `price` and round
down to the amount step.  Sells return
`base_free * MAX_POSITION_PERCENT` rounded down to the amount step, with no
minimum-notional check. -/
def calculate_trade_amount (cfg : TradingConfig) (side : String) (price : ℚ)
    (usdt_free base_free : ℚ) (d : ℕ) : ℚ :=
  if side = "buy" then
    let max_amount := usdt_free * cfg.MAX_POSITION_PERCENT
    if max_amount < cfg.MIN_TRADE_AMOUNT then 0
    else adjust_amount_precision (max_amount / price) d
  else
    adjust_amount_precision (base_free * cfg.MAX_POSITION_PERCENT) d

/-- C3 counterexample: a sell with free base balance 0.1 at price 100 under
the default configuration (cap 0.15, minimum trade amount 20, amount step
0.001) returns the non-zero amount 0.015 although its notional 1.5 is far
below the minimum trade amount — the sell side has no minimum-notional
no-op. -/
theorem c3_sell_ignores_min_notional_counterexample :
    calculate_trade_amount default_trading_config "sell" 100 0 (1/10) 3 = 15/1000 ∧
    (15/1000 : ℚ) * 100 < default_trading_config.MIN_TRADE_AMOUNT ∧
    (15/1000 : ℚ) ≠ 0 := by
  have hside : ¬ ("sell" = "buy") := by decide
  refine ⟨?_, by norm_num [default_trading_config], by norm_num⟩
  rw [calculate_trade_amount, if_neg hside]
  norm_num [adjust_amount_precision, round_down_to_precision, default_trading_config]

/-- C3 (amended): buys are sized as the free quote balance times the
max-percentage cap, no-op (amount 0) whenever that notional is below the
configured minimum trade amount, and otherwise converted to base units and
floor-rounded to the instrument's minimum amount step; sells are sized as the
free base balance times the cap and floor-rounded to the step, with no
minimum-notional check.  Floor-rounding returns a multiple of the step,
at most the exact value and within one step of it. -/
theorem c3_trade_amount_sizing (cfg : TradingConfig)
    (price usdt_free base_free : ℚ) (d : ℕ) :
    (usdt_free * cfg.MAX_POSITION_PERCENT < cfg.MIN_TRADE_AMOUNT →
      calculate_trade_amount cfg "buy" price usdt_free base_free d = 0) ∧
    (cfg.MIN_TRADE_AMOUNT ≤ usdt_free * cfg.MAX_POSITION_PERCENT →
      calculate_trade_amount cfg "buy" price usdt_free base_free d =
        round_down_to_precision (usdt_free * cfg.MAX_POSITION_PERCENT / price) d) ∧
    (calculate_trade_amount cfg "sell" price usdt_free base_free d =
      round_down_to_precision (base_free * cfg.MAX_POSITION_PERCENT) d) ∧
    (∀ value : ℚ, 0 ≤ value →
      round_down_to_precision value d ≤ value ∧
      value - round_down_to_precision value d < (10 ^ d)⁻¹ ∧
      round_down_to_precision value d * 10 ^ d = (⌊value * 10 ^ d⌋ : ℚ)) := by
  have hP : (0:ℚ) < 10 ^ d := by positivity
  have hP0 : (10:ℚ) ^ d ≠ 0 := ne_of_gt hP
  refine ⟨?_, ?_, ?_, ?_⟩
  · intro h
    simp [calculate_trade_amount, if_pos h]
  · intro h
    have hnot : ¬ (usdt_free * cfg.MAX_POSITION_PERCENT < cfg.MIN_TRADE_AMOUNT) :=
      not_lt.mpr h
    simp [calculate_trade_amount, if_neg hnot, adjust_amount_precision]
  · rw [calculate_trade_amount, if_neg (by decide : ¬ ("sell" = "buy"))]
    rfl
  · intro value hv
    have hnneg : ¬ (value < 0) := not_lt.mpr hv
    rw [round_down_to_precision, if_neg hnneg]
    refine ⟨?_, ?_, ?_⟩
    · rw [div_le_iff₀ hP]
      exact Int.floor_le (value * 10 ^ d)
    · have hlow := Int.sub_one_lt_floor (value * 10 ^ d)
      rw [sub_div' _ _ _ hP0, div_lt_iff₀ hP, inv_mul_cancel₀ hP0]
      linarith
    · exact div_mul_cancel₀ _ hP0

/-- Witness for C3 (amended) at price 50, quote balance 1000, base balance 2,
step 0.001, default configuration. -/
theorem c3_trade_amount_sizing_witness :
    ((1000:ℚ) * default_trading_config.MAX_POSITION_PERCENT <
        default_trading_config.MIN_TRADE_AMOUNT →
      calculate_trade_amount default_trading_config "buy" 50 1000 2 3 = 0) ∧
    (default_trading_config.MIN_TRADE_AMOUNT ≤
        (1000:ℚ) * default_trading_config.MAX_POSITION_PERCENT →
      calculate_trade_amount default_trading_config "buy" 50 1000 2 3 =
        round_down_to_precision
          (1000 * default_trading_config.MAX_POSITION_PERCENT / 50) 3) ∧
    (calculate_trade_amount default_trading_config "sell" 50 1000 2 3 =
      round_down_to_precision (2 * default_trading_config.MAX_POSITION_PERCENT) 3) ∧
    (∀ value : ℚ, 0 ≤ value →
      round_down_to_precision value 3 ≤ value ∧
      value - round_down_to_precision value 3 < ((10:ℚ) ^ 3)⁻¹ ∧
      round_down_to_precision value 3 * 10 ^ 3 = (⌊value * 10 ^ 3⌋ : ℚ)) :=
  c3_trade_amount_sizing default_trading_config 50 1000 2 3

/-- Inputs consumed by one risk-check pass of `RiskManager`: the position
share returned by `_get_position_ratio` (base-asset value over total assets),
the total assets from `trader._get_total_assets`, the trader's price history,
the wall-clock time (`time.time()`) and the current calendar date
(`datetime.now().date()`, encoded as a day number). -/
structure RiskEnv where
  position_share : ℚ
  total_assets : ℚ
  price_history : List ℚ
  now : ℚ
  today : ℕ

/-- Mutable state of `RiskManager`: the one-way emergency-stop latch, the
last logged position share (`last_position_ratio`), per-risk-kind alert
cooldown timestamps (`risk_alerts`), the all-time-high asset value, the
daily-loss anchor (`daily_start_assets`) and `daily_pnl_history` as
(date, start assets) entries. -/
structure RiskState where
  emergency_stop_triggered : Bool
  last_position_share : Option ℚ
  risk_alerts : List (String × ℚ)
  max_asset_value : ℚ
  daily_start_assets : Option ℚ
  daily_pnl_history : List (ℕ × ℚ)

/-- The risk-state fields as initialised by `RiskManager.__init__`. -/
def initial_risk_state : RiskState :=
  { emergency_stop_triggered := false, last_position_share := none,
    risk_alerts := [], max_asset_value := 0, daily_start_assets := none,
    daily_pnl_history := [] }

/-- Dictionary assignment `self.risk_alerts[risk_level] = current_time`. -/
def set_alert (alerts : List (String × ℚ)) (k : String) (v : ℚ) :
    List (String × ℚ) :=
  (alerts.filter (fun p => !(p.1 == k))) ++ [(k, v)]

/-- `RiskManager.send_risk_alert`: suppress the alert when the same risk kind
fired within the last 300 seconds, otherwise record the new timestamp (the
log line and notification have no further state effect). -/
def send_risk_alert (s : RiskState) (risk_level : String) (now : ℚ) : RiskState :=
  match s.risk_alerts.lookup risk_level with
  | some prev =>
    if now - prev < 300 then s
    else { s with risk_alerts := set_alert s.risk_alerts risk_level now }
  | none => { s with risk_alerts := set_alert s.risk_alerts risk_level now }

/-- `RiskManager.check_position_risk` (exception-free path): update the
last-logged share when it moved by more than 0.001, then violate when the
share is below the floor or above the cap. -/
def check_position_risk (cfg : TradingConfig) (s : RiskState) (env : RiskEnv) :
    Bool × RiskState :=
  let share := env.position_share
  let last : Option ℚ :=
    match s.last_position_share with
    | none => some share
    | some l => if 1/1000 < |share - l| then some share else some l
  let s1 := { s with last_position_share := last }
  if share < cfg.MIN_POSITION_SHARE then
    (true, send_risk_alert s1 "POSITION_LOW" env.now)
  else if cfg.MAX_POSITION_SHARE < share then
    (true, send_risk_alert s1 "POSITION_HIGH" env.now)
  else (false, s1)

/-- `RiskManager.check_max_drawdown` (exception-free path): raise the
all-time-high to the current assets if exceeded, then violate when
`(current - high) / high` is below `MAX_DRAWDOWN`. -/
def check_max_drawdown (cfg : TradingConfig) (s : RiskState) (env : RiskEnv) :
    Bool × RiskState :=
  let current := env.total_assets
  let m := if s.max_asset_value < current then current else s.max_asset_value
  let s1 := { s with max_asset_value := m }
  if 0 < m then
    if (current - m) / m < cfg.MAX_DRAWDOWN then
      (true, send_risk_alert s1 "MAX_DRAWDOWN" env.now)
    else (false, s1)
  else (false, s1)

/-- `RiskManager._is_new_day`: `True` when `daily_pnl_history` is empty,
otherwise whether today's date is strictly past the last recorded date. -/
def is_new_day (hist : List (ℕ × ℚ)) (today : ℕ) : Bool :=
  match hist.getLast? with
  | none => true
  | some last => decide (last.1 < today)

/-- `RiskManager.check_daily_loss_limit` (exception-free path): a `None`
anchor is initialised from the current assets (recording no date); on a new
day the anchor is re-assigned and a (date, assets) entry is appended to
`daily_pnl_history`; otherwise violate when the daily pnl relative to the
anchor is below `DAILY_LOSS_LIMIT`. -/
def check_daily_loss_limit (cfg : TradingConfig) (s : RiskState) (env : RiskEnv) :
    Bool × RiskState :=
  match s.daily_start_assets with
  | none => (false, { s with daily_start_assets := some env.total_assets })
  | some anchor =>
    if is_new_day s.daily_pnl_history env.today then
      (false, { s with
                daily_start_assets := some env.total_assets
                daily_pnl_history :=
                  s.daily_pnl_history ++ [(env.today, env.total_assets)] })
    else
      if (env.total_assets - anchor) / anchor < cfg.DAILY_LOSS_LIMIT then
        (true, send_risk_alert s "DAILY_LOSS" env.now)
      else (false, s)

/-- Percentage returns of consecutive prices, skipping pairs whose first
price is zero, as in `RiskManager._calculate_volatility`. -/
def pct_returns : List ℚ → List ℚ
  | [] => []
  | [_] => []
  | p0 :: p1 :: rest =>
    if p0 = 0 then pct_returns (p1 :: rest)
    else ((p1 - p0) / p0) :: pct_returns (p1 :: rest)

/-- Arithmetic mean of a list of rationals (0 for the empty list). -/
def list_mean (l : List ℚ) : ℚ := l.sum / l.length

/-- Population variance, the square of `np.std`: since `np.std(returns)` is
compared only against nonnegative thresholds, volatility comparisons
`std > c` are embedded as `variance > c^2`. -/
def variance_of (l : List ℚ) : ℚ :=
  ((l.map (fun r => (r - list_mean l) ^ 2)).sum) / l.length

/-- `RiskManager.check_volatility_risk` (exception-free path): with fewer than
20 recorded prices return `False`; else compute the volatility of the last 20
prices and violate only above the extreme threshold 0.2 (the 0.1 warning
threshold sends an advisory alert but does not violate). -/
def check_volatility_risk (_cfg : TradingConfig) (s : RiskState) (env : RiskEnv) :
    Bool × RiskState :=
  if env.price_history.length < 20 then (false, s)
  else
    let recent := env.price_history.drop (env.price_history.length - 20)
    let var := variance_of (pct_returns recent)
    if (2/10 : ℚ)^2 < var then (true, send_risk_alert s "EXTREME_VOLATILITY" env.now)
    else if (1/10 : ℚ)^2 < var then (false, send_risk_alert s "HIGH_VOLATILITY" env.now)
    else (false, s)

/-- Substring test used by `handle_risk_event` (`"紧急" in event_type`),
via `String.splitOn`: the pattern occurs iff splitting on it yields more than
one piece. -/
def str_contains_sub (s pat : String) : Bool :=
  decide ((s.splitOn pat).length ≠ 1)

/-- `RiskManager.trigger_emergency_stop`: idempotently latch the emergency
stop (the order-cancelling and notification side effects happen outside the
risk state). -/
def trigger_emergency_stop (s : RiskState) : RiskState :=
  if s.emergency_stop_triggered then s
  else { s with emergency_stop_triggered := true }

/-- `RiskManager.handle_risk_event`: event types containing 紧急 (emergency)
or 极端 (extreme) latch the emergency stop; any other event pauses the trader
for 60 seconds (setting and then clearing the trader's busy flag) and leaves
the risk state unchanged. -/
def handle_risk_event (s : RiskState) (event_type : String) : RiskState :=
  if str_contains_sub event_type "紧急" || str_contains_sub event_type "极端" then
    trigger_emergency_stop s
  else s

/-- `RiskManager.check_all_risks` (exception-free path): return `False`
immediately once the emergency stop is latched; otherwise run the four checks
in order, threading the state, and on any violation handle the risk event
"多重风险触发" (which contains neither 紧急 nor 极端) and return `False`. -/
def check_all_risks (cfg : TradingConfig) (s : RiskState) (env : RiskEnv) :
    Bool × RiskState :=
  if s.emergency_stop_triggered then (false, s)
  else
    let r1 := check_position_risk cfg s env
    let r2 := check_max_drawdown cfg r1.2 env
    let r3 := check_daily_loss_limit cfg r2.2 env
    let r4 := check_volatility_risk cfg r3.2 env
    if r1.1 || r2.1 || r3.1 || r4.1 then
      (false, handle_risk_event r4.2 "多重风险触发")
    else (true, r4.2)

/-- `RiskManager.reset_risk_state`: the explicit reset clears the latch, the
alert map, the all-time high and the daily anchor (`daily_pnl_history` is not
cleared). -/
def reset_risk_state (s : RiskState) : RiskState :=
  { s with
    emergency_stop_triggered := false
    risk_alerts := []
    max_asset_value := 0
    daily_start_assets := none }

lemma send_risk_alert_flag (s : RiskState) (k : String) (now : ℚ) :
    (send_risk_alert s k now).emergency_stop_triggered =
      s.emergency_stop_triggered := by
  unfold send_risk_alert
  rcases s.risk_alerts.lookup k with _ | prev
  · rfl
  · dsimp only
    split <;> rfl

lemma send_risk_alert_daily (s : RiskState) (k : String) (now : ℚ) :
    (send_risk_alert s k now).daily_start_assets = s.daily_start_assets ∧
    (send_risk_alert s k now).daily_pnl_history = s.daily_pnl_history := by
  unfold send_risk_alert
  rcases s.risk_alerts.lookup k with _ | prev
  · exact ⟨rfl, rfl⟩
  · dsimp only
    split <;> exact ⟨rfl, rfl⟩

lemma check_position_risk_flag (cfg : TradingConfig) (s : RiskState)
    (env : RiskEnv) :
    (check_position_risk cfg s env).2.emergency_stop_triggered =
      s.emergency_stop_triggered := by
  unfold check_position_risk
  dsimp only
  split_ifs <;> simp [send_risk_alert_flag]

lemma check_max_drawdown_flag (cfg : TradingConfig) (s : RiskState)
    (env : RiskEnv) :
    (check_max_drawdown cfg s env).2.emergency_stop_triggered =
      s.emergency_stop_triggered := by
  unfold check_max_drawdown
  dsimp only
  split_ifs <;> simp [send_risk_alert_flag]

lemma check_daily_loss_limit_flag (cfg : TradingConfig) (s : RiskState)
    (env : RiskEnv) :
    (check_daily_loss_limit cfg s env).2.emergency_stop_triggered =
      s.emergency_stop_triggered := by
  unfold check_daily_loss_limit
  rcases h : s.daily_start_assets with _ | anchor
  all_goals dsimp only
  all_goals split_ifs <;> simp [send_risk_alert_flag]

lemma check_volatility_risk_flag (cfg : TradingConfig) (s : RiskState)
    (env : RiskEnv) :
    (check_volatility_risk cfg s env).2.emergency_stop_triggered =
      s.emergency_stop_triggered := by
  unfold check_volatility_risk
  dsimp only
  split_ifs <;> simp [send_risk_alert_flag]

lemma trigger_emergency_stop_flag (s : RiskState) :
    (trigger_emergency_stop s).emergency_stop_triggered =
      (s.emergency_stop_triggered || true) := by
  unfold trigger_emergency_stop
  split
  · simp_all
  · simp

/-- C5: the emergency-stop latch is one-way.  Whenever the latch is set,
`check_all_risks` returns `False` and leaves it set, each of the four
individual risk checks leaves it set, any risk-event handling (emergency or
not) leaves it set, `trigger_emergency_stop` keeps it set, and only
`reset_risk_state` (the explicit restart/reset) makes it false again. -/
theorem c5_emergency_stop_latch_one_way (cfg : TradingConfig) (s : RiskState)
    (env : RiskEnv) (e : String) (h : s.emergency_stop_triggered = true) :
    (check_all_risks cfg s env).1 = false ∧
    (check_all_risks cfg s env).2.emergency_stop_triggered = true ∧
    (check_position_risk cfg s env).2.emergency_stop_triggered = true ∧
    (check_max_drawdown cfg s env).2.emergency_stop_triggered = true ∧
    (check_daily_loss_limit cfg s env).2.emergency_stop_triggered = true ∧
    (check_volatility_risk cfg s env).2.emergency_stop_triggered = true ∧
    (handle_risk_event s e).emergency_stop_triggered = true ∧
    (trigger_emergency_stop s).emergency_stop_triggered = true ∧
    (reset_risk_state s).emergency_stop_triggered = false := by
  refine ⟨?_, ?_, ?_, ?_, ?_, ?_, ?_, ?_, rfl⟩
  · simp [check_all_risks, h]
  · simp [check_all_risks, h]
  · rw [check_position_risk_flag, h]
  · rw [check_max_drawdown_flag, h]
  · rw [check_daily_loss_limit_flag, h]
  · rw [check_volatility_risk_flag, h]
  · unfold handle_risk_event
    split
    · rw [trigger_emergency_stop_flag, h]
      rfl
    · exact h
  · rw [trigger_emergency_stop_flag, h]
    rfl

/-- Witness for C5 on a concrete latched state. -/
theorem c5_emergency_stop_latch_one_way_witness :
    (⟨true, none, [], 0, none, []⟩ : RiskState).emergency_stop_triggered = true ∧
    ((check_all_risks default_trading_config ⟨true, none, [], 0, none, []⟩
        ⟨0, 0, [], 0, 0⟩).1 = false ∧
      (check_all_risks default_trading_config ⟨true, none, [], 0, none, []⟩
        ⟨0, 0, [], 0, 0⟩).2.emergency_stop_triggered = true ∧
      (check_position_risk default_trading_config ⟨true, none, [], 0, none, []⟩
        ⟨0, 0, [], 0, 0⟩).2.emergency_stop_triggered = true ∧
      (check_max_drawdown default_trading_config ⟨true, none, [], 0, none, []⟩
        ⟨0, 0, [], 0, 0⟩).2.emergency_stop_triggered = true ∧
      (check_daily_loss_limit default_trading_config ⟨true, none, [], 0, none, []⟩
        ⟨0, 0, [], 0, 0⟩).2.emergency_stop_triggered = true ∧
      (check_volatility_risk default_trading_config ⟨true, none, [], 0, none, []⟩
        ⟨0, 0, [], 0, 0⟩).2.emergency_stop_triggered = true ∧
      (handle_risk_event ⟨true, none, [], 0, none, []⟩
        "多重风险触发").emergency_stop_triggered = true ∧
      (trigger_emergency_stop
        ⟨true, none, [], 0, none, []⟩).emergency_stop_triggered = true ∧
      (reset_risk_state
        ⟨true, none, [], 0, none, []⟩).emergency_stop_triggered = false) :=
  ⟨rfl, c5_emergency_stop_latch_one_way default_trading_config
    ⟨true, none, [], 0, none, []⟩ ⟨0, 0, [], 0, 0⟩ "多重风险触发" rfl⟩

/-- C4 counterexample: starting from the freshly initialised risk state, a
first call on date 5 with assets 100 sets the anchor to 100 without recording
any date; a second call on the same date 5 with assets 200 re-assigns the
anchor to 200, because `_is_new_day` reports a new day whenever
`daily_pnl_history` is empty.  The anchor is thus re-assigned with no
calendar-date transition, refuting the claim for the second call. -/
theorem c4_second_call_reanchors_counterexample :
    (check_daily_loss_limit default_trading_config initial_risk_state
        ⟨0, 100, [], 0, 5⟩).2.daily_start_assets = some 100 ∧
    (check_daily_loss_limit default_trading_config
        (check_daily_loss_limit default_trading_config initial_risk_state
          ⟨0, 100, [], 0, 5⟩).2
        ⟨0, 200, [], 0, 5⟩).2.daily_start_assets = some 200 := by
  constructor
  · rfl
  · rfl

/-- C4 (amended): once a dated entry exists in `daily_pnl_history` (true
from the third call on: the first call only sets the anchor, the second call
always re-anchors and records the first dated entry), the anchor is
re-assigned on a call iff the current calendar date is strictly greater than
the last recorded date; on such a roll-over the call returns no violation and
appends a dated entry, and within the same date the anchor and the history
are left unchanged. -/
theorem c4_daily_anchor_resets_on_date_change (cfg : TradingConfig)
    (s : RiskState) (env : RiskEnv) (a x : ℚ) (d : ℕ) (h : List (ℕ × ℚ))
    (hanchor : s.daily_start_assets = some a)
    (hhist : s.daily_pnl_history = h ++ [(d, x)]) :
    (d < env.today →
      (check_daily_loss_limit cfg s env).2.daily_start_assets =
        some env.total_assets ∧
      (check_daily_loss_limit cfg s env).2.daily_pnl_history =
        s.daily_pnl_history ++ [(env.today, env.total_assets)] ∧
      (check_daily_loss_limit cfg s env).1 = false) ∧
    (¬ d < env.today →
      (check_daily_loss_limit cfg s env).2.daily_start_assets = some a ∧
      (check_daily_loss_limit cfg s env).2.daily_pnl_history =
        s.daily_pnl_history) := by
  have hnew : is_new_day s.daily_pnl_history env.today = decide (d < env.today) := by
    rw [hhist]
    unfold is_new_day
    rw [List.getLast?_concat]
  constructor
  · intro hd
    simp [check_daily_loss_limit, hanchor, hnew, hd]
  · intro hd
    have hfalse : is_new_day s.daily_pnl_history env.today = false := by
      rw [hnew]
      simpa using hd
    simp only [check_daily_loss_limit, hanchor, hfalse, Bool.false_eq_true,
      if_false]
    split_ifs
    · exact ⟨(send_risk_alert_daily s "DAILY_LOSS" env.now).1.trans hanchor,
        (send_risk_alert_daily s "DAILY_LOSS" env.now).2⟩
    · exact ⟨hanchor, rfl⟩

/-- Witness for C4 (amended): anchor 100 recorded on date 4, next call on
date 5 with assets 90. -/
theorem c4_daily_anchor_resets_on_date_change_witness :
    (⟨false, none, [], 0, some 100, [(4, 100)]⟩ : RiskState).daily_start_assets =
      some 100 ∧
    (⟨false, none, [], 0, some 100, [(4, 100)]⟩ : RiskState).daily_pnl_history =
      [] ++ [(4, 100)] ∧
    ((4 < 5 →
      (check_daily_loss_limit default_trading_config
          ⟨false, none, [], 0, some 100, [(4, 100)]⟩
          ⟨0, 90, [], 0, 5⟩).2.daily_start_assets = some 90 ∧
      (check_daily_loss_limit default_trading_config
          ⟨false, none, [], 0, some 100, [(4, 100)]⟩
          ⟨0, 90, [], 0, 5⟩).2.daily_pnl_history =
        (⟨false, none, [], 0, some 100, [(4, 100)]⟩ :
          RiskState).daily_pnl_history ++ [(5, 90)] ∧
      (check_daily_loss_limit default_trading_config
          ⟨false, none, [], 0, some 100, [(4, 100)]⟩
          ⟨0, 90, [], 0, 5⟩).1 = false) ∧
    (¬ 4 < 5 →
      (check_daily_loss_limit default_trading_config
          ⟨false, none, [], 0, some 100, [(4, 100)]⟩
          ⟨0, 90, [], 0, 5⟩).2.daily_start_assets = some 100 ∧
      (check_daily_loss_limit default_trading_config
          ⟨false, none, [], 0, some 100, [(4, 100)]⟩
          ⟨0, 90, [], 0, 5⟩).2.daily_pnl_history =
        (⟨false, none, [], 0, some 100, [(4, 100)]⟩ :
          RiskState).daily_pnl_history)) :=
  ⟨rfl, rfl, c4_daily_anchor_resets_on_date_change default_trading_config
    ⟨false, none, [], 0, some 100, [(4, 100)]⟩ ⟨0, 90, [], 0, 5⟩
    100 100 4 [] rfl rfl⟩

/-- The streak-scanning loop of `OrderTracker.get_statistics`: `prev` is
`profits[i-1]`, `cur` the running streak length (starting at 1), `mw`/`ml`
the maxima recorded so far.  A run's length is credited to the win
(respectively loss) maximum only when the run breaks at some later index;
the loop ends without flushing the final run. -/
def streak_scan : ℚ → ℕ → ℕ → ℕ → List ℚ → ℕ × ℕ
  | _, _, mw, ml, [] => (mw, ml)
  | prev, cur, mw, ml, p :: rest =>
    if (0 < p ∧ 0 < prev) ∨ (p < 0 ∧ prev < 0) then
      streak_scan p (cur + 1) mw ml rest
    else
      if 0 < prev then streak_scan p 1 (max mw cur) ml rest
      else streak_scan p 1 mw (max ml cur) rest

/-- The dictionary returned by `OrderTracker.get_statistics`. -/
structure TradeStats where
  total_trades : ℕ
  win_rate : ℚ
  total_profit : ℚ
  avg_profit : ℚ
  max_profit : ℚ
  max_loss : ℚ
  profit_factor : ℚ
  consecutive_wins : ℕ
  consecutive_losses : ℕ

/-- `OrderTracker.get_statistics`: an empty history yields all-zero
statistics; otherwise each statistic is computed from the profit values
`t.get("profit", 0)` of the chronological history, with the win/loss streaks
produced by `streak_scan`. -/
def get_statistics (trade_history : List TradeRecord) : TradeStats :=
  if trade_history.isEmpty then ⟨0, 0, 0, 0, 0, 0, 0, 0, 0⟩
  else
    let profits := trade_history.map (fun t => t.profit.getD 0)
    let total_trades := trade_history.length
    let winning := (trade_history.filter (fun t => decide (0 < t.profit.getD 0))).length
    let total_profit := profits.sum
    let pos_sum := (profits.filter (fun p => decide (0 < p))).sum
    let neg_sum := (profits.filter (fun p => decide (p < 0))).sum
    let streaks :=
      match profits with
      | [] => (0, 0)
      | p :: rest => streak_scan p 1 0 0 rest
    { total_trades := total_trades
      win_rate := (winning : ℚ) / (total_trades : ℚ)
      total_profit := total_profit
      avg_profit := total_profit / (total_trades : ℚ)
      max_profit := (profits.max?).getD 0
      max_loss := (profits.min?).getD 0
      profit_factor := if neg_sum ≠ 0 then pos_sum / |neg_sum| else 0
      consecutive_wins := streaks.1
      consecutive_losses := streaks.2 }

/-- C8 failing input: a history of three trades, every one with strictly
positive profit 1.  The longest contiguous block of positive profits is the
whole history (length 3, ending at the last record), yet `get_statistics`
reports `consecutive_wins = 0` because the scan never credits the run that
ends at the last record. -/
theorem c8_final_run_never_counted :
    (∀ t ∈ [{ cx_trade 1 with profit := some 1 },
            { cx_trade 2 with profit := some 1 },
            { cx_trade 3 with profit := some 1 }], (0:ℚ) < t.profit.getD 0) ∧
    (get_statistics [{ cx_trade 1 with profit := some 1 },
                     { cx_trade 2 with profit := some 1 },
                     { cx_trade 3 with profit := some 1 }]).total_trades = 3 ∧
    (get_statistics [{ cx_trade 1 with profit := some 1 },
                     { cx_trade 2 with profit := some 1 },
                     { cx_trade 3 with profit := some 1 }]).consecutive_wins = 0 := by
  refine ⟨?_, ?_, ?_⟩
  · intro t ht
    fin_cases ht <;> norm_num [cx_trade]
  · norm_num [get_statistics, cx_trade]
  · norm_num [get_statistics, cx_trade, streak_scan]

/-- Outcome of a Python call that may raise: a value or an exception. -/
inductive PyOutcome (α : Type) where
  | ok : α → PyOutcome α
  | exc : PyOutcome α

/-- The grid-trader state fields touched by order execution.  The current
price is carried as a plain rational: the execution paths run only after a
signal fired, which requires a truthy `current_price`. -/
structure TraderState where
  buying_or_selling : Bool
  base_price : ℚ
  highest : Option ℚ
  lowest : Option ℚ
  trade_history : List TradeRecord

/-- Environment of one `_execute_buy_order`/`_execute_sell_order` call: the
result of `fetch_balance` inside `calculate_trade_amount` (free quote and
free base balance; an exception there is caught inside
`calculate_trade_amount` and yields amount 0), the exchange's response to
`create_market_order` (the filled order id, or an exception), and the outcome
of the trade notification call. -/
structure ExecEnv where
  balances : PyOutcome (ℚ × ℚ)
  order_result : PyOutcome ℕ
  notify_result : PyOutcome Unit

/-- `GridTrader._execute_buy_order` as a state transformer: set the busy flag,
compute the amount, return early when it is not positive, place the order,
record the trade, notify, and re-anchor the grid (`_adjust_grid_after_trade`:
`base_price := current_price`, extrema reset); every exception is caught by
the `except` clause and the `finally` clause always clears the busy flag. -/
def execute_buy_order (cfg : TradingConfig) (d : ℕ) (price now : ℚ)
    (symbol : String) (st : TraderState) (env : ExecEnv) : TraderState :=
  let st1 := { st with buying_or_selling := true }
  let amount : ℚ :=
    match env.balances with
    | .exc => 0
    | .ok b => calculate_trade_amount cfg "buy" price b.1 b.2 d
  let st2 :=
    if amount ≤ 0 then st1
    else
      match env.order_result with
      | .exc => st1
      | .ok oid =>
        let record : TradeRecord :=
          { timestamp := now, symbol := symbol, side := "buy", amount := amount,
            price := price, cost := amount * price, order_id := oid, profit := none }
        let st3 := { st1 with trade_history := add_trade st1.trade_history record }
        match env.notify_result with
        | .exc => st3
        | .ok _ => { st3 with base_price := price, highest := none, lowest := none }
  { st2 with buying_or_selling := false }

/-- `GridTrader._execute_sell_order`, structured exactly like the buy path
but sized from the base balance. -/
def execute_sell_order (cfg : TradingConfig) (d : ℕ) (price now : ℚ)
    (symbol : String) (st : TraderState) (env : ExecEnv) : TraderState :=
  let st1 := { st with buying_or_selling := true }
  let amount : ℚ :=
    match env.balances with
    | .exc => 0
    | .ok b => calculate_trade_amount cfg "sell" price b.1 b.2 d
  let st2 :=
    if amount ≤ 0 then st1
    else
      match env.order_result with
      | .exc => st1
      | .ok oid =>
        let record : TradeRecord :=
          { timestamp := now, symbol := symbol, side := "sell", amount := amount,
            price := price, cost := amount * price, order_id := oid, profit := none }
        let st3 := { st1 with trade_history := add_trade st1.trade_history record }
        match env.notify_result with
        | .exc => st3
        | .ok _ => { st3 with base_price := price, highest := none, lowest := none }
  { st2 with buying_or_selling := false }

/-- C9: the busy flag is always released.  For every starting state and every
environment — including non-positive computed amounts, balance-fetch
exceptions and order-placement or notification exceptions — both
`_execute_buy_order` and `_execute_sell_order` return with
`buying_or_selling = False`. -/
theorem c9_busy_flag_always_released (cfg : TradingConfig) (d : ℕ)
    (price now : ℚ) (symbol : String) (st : TraderState) (env : ExecEnv) :
    (execute_buy_order cfg d price now symbol st env).buying_or_selling = false ∧
    (execute_sell_order cfg d price now symbol st env).buying_or_selling = false :=
  ⟨rfl, rfl⟩

/-- `PositionController._adjust_amount_precision`: floor the amount at the
decimal precision of the minimum amount step (`math.floor(amount * 10^d) /
10^d` for a step `10^(-d)`). -/
def pc_adjust_amount_precision (amount : ℚ) (d : ℕ) : ℚ :=
  (⌊amount * 10 ^ d⌋ : ℚ) / 10 ^ d

/-- `PositionController._get_current_position_ratio` (named `share` here, see
`TradingConfig`): the base-asset value as a share of base value plus free
quote balance, 0 on a falsy price or non-positive total. -/
def get_current_position_share (base_free usdt_free : ℚ)
    (current_price : Option ℚ) : ℚ :=
  match current_price with
  | none => 0
  | some p =>
    if p = 0 then 0
    else
      let base_value := base_free * p
      let total_value := base_value + usdt_free
      if total_value ≤ 0 then 0 else base_value / total_value

/-- `GridTrader._update_total_assets` / `_get_total_assets`: the total quote
balance plus the total base balance valued at the current price (the latter
only when the base balance is positive and the price truthy). -/
def get_total_assets (usdt_total base_total : ℚ) (current_price : Option ℚ) : ℚ :=
  match current_price with
  | none => usdt_total
  | some p =>
    if 0 < base_total ∧ ¬ p = 0 then usdt_total + base_total * p else usdt_total

/-- `PositionController._calculate_adjustment_amount`: size the adjustment
from the target ratio delta against total assets, clip to the available free
balance, reject below `MIN_TRADE_AMOUNT`, and floor to the amount step. -/
def calculate_adjustment_amount (cfg : TradingConfig) (side : String)
    (target_ratio_change : ℚ) (usdt_free base_free usdt_total base_total : ℚ)
    (current_price : Option ℚ) (d : ℕ) : ℚ :=
  match current_price with
  | none => 0
  | some p =>
    if p = 0 then 0
    else if side = "buy" then
      let total_assets := get_total_assets usdt_total base_total current_price
      let target_usdt := total_assets * target_ratio_change
      let available_usdt := min usdt_free target_usdt
      if available_usdt < cfg.MIN_TRADE_AMOUNT then 0
      else pc_adjust_amount_precision (available_usdt / p) d
    else
      let total_assets := get_total_assets usdt_total base_total current_price
      let target_base_amount := total_assets * target_ratio_change / p
      let available_amount := min base_free target_base_amount
      if available_amount * p < cfg.MIN_TRADE_AMOUNT then 0
      else pc_adjust_amount_precision available_amount d

/-- `PositionController._execute_s1_adjustment` up to order placement: the
throttle gate, the precision adjustment, the positivity, price,
minimum-notional and balance checks; returns the (side, amount) submitted as
a market order, or `none` when any gate rejects.  The yield-account
redemption fallback for insufficient quote balance is dead code in this
repository (`GridTrader` defines no `_pre_transfer_funds`), so an
insufficient balance simply fails. -/
def execute_s1_adjustment (side : String) (amount : ℚ) (throttle_ok : Bool)
    (current_price : Option ℚ) (min_notional : ℚ) (usdt_free base_free : ℚ)
    (d : ℕ) : Option (String × ℚ) :=
  if !throttle_ok then none
  else
    let adjusted := pc_adjust_amount_precision amount d
    if adjusted ≤ 0 then none
    else
      match current_price with
      | none => none
      | some p =>
        if p = 0 then none
        else if adjusted * p < min_notional then none
        else if side = "buy" then
          if usdt_free < adjusted * p then none else some (side, adjusted)
        else
          if base_free < adjusted then none else some (side, adjusted)

/-- `PositionController._check_s1_strategy`: with S1 levels and a truthy
price available and a positive 52-period range, compute
`price_position = (price - low) / (high - low)` and the current position
share; a position at or above 0.8 with the share above the sell target sizes
and submits a sell toward the target, a position at or below 0.2 with the
share below the buy target sizes and submits a buy toward the target.  There
is no check that `price_position` lies within [0, 1]. -/
def check_s1_strategy (cfg : TradingConfig)
    (s1_daily_high s1_daily_low current_price : Option ℚ)
    (usdt_free base_free usdt_total base_total : ℚ)
    (sell_target buy_target : ℚ) (throttle_ok : Bool) (min_notional : ℚ)
    (d : ℕ) : Option (String × ℚ) :=
  match s1_daily_high, s1_daily_low with
  | some hi, some lo =>
    (match current_price with
    | none => none
    | some p =>
      if p = 0 then none
      else
        let price_range := hi - lo
        if price_range ≤ 0 then none
        else
          let price_position := (p - lo) / price_range
          let share := get_current_position_share base_free usdt_free current_price
          if 8/10 ≤ price_position ∧ sell_target < share then
            let sell_amount := calculate_adjustment_amount cfg "sell"
              (share - sell_target) usdt_free base_free usdt_total base_total
              current_price d
            if 0 < sell_amount then
              execute_s1_adjustment "sell" sell_amount throttle_ok current_price
                min_notional usdt_free base_free d
            else none
          else if price_position ≤ 2/10 ∧ share < buy_target then
            let buy_amount := calculate_adjustment_amount cfg "buy"
              (buy_target - share) usdt_free base_free usdt_total base_total
              current_price d
            if 0 < buy_amount then
              execute_s1_adjustment "buy" buy_amount throttle_ok current_price
                min_notional usdt_free base_free d
            else none
          else none)
  | _, _ => none

/-- C7 failing input: 52-period high 700 and low 500 with current price 800
give `price_position = 1.5`, outside the sane range [0, 1] (stale data); with
free/total balances of 1 base and 430 quote the position share is
800/1230 > 0.5, and the S1 check submits a sell of 0.231 base units instead
of treating the out-of-range position as advisory-only. -/
theorem c7_out_of_range_position_still_trades :
    ((800:ℚ) - 500) / (700 - 500) = 3/2 ∧ (1:ℚ) < 3/2 ∧
    check_s1_strategy default_trading_config (some 700) (some 500) (some 800)
      430 1 430 1 (1/2) (7/10) true 10 3 = some ("sell", 231/1000) := by
  refine ⟨by norm_num, by norm_num, ?_⟩
  norm_num [check_s1_strategy, get_current_position_share,
    calculate_adjustment_amount, get_total_assets, execute_s1_adjustment,
    pc_adjust_amount_precision, default_trading_config, min_def]
